import Mathlib

/-!
Shallow embedding of the Warehouse Transfer Request client script
(`frappe.ui.form.on("Warehouse Transfer Request", ...)` and its helper
functions).  Quantities are embedded as `Int` (the script's `x || 0`
defaulting of absent values is folded into the field defaults), row keys
and statuses are the script's strings, and each workflow handler becomes a
function from the form state it reads to the outcome it produces (a
validation-error message list, one of the empty-state message boxes, or
the RPC call it issues together with the serialized payload).
-/

namespace ElectroZone

/-! ## JavaScript string primitives (`toLowerCase`, `includes`, `trim`) -/

/-- `String.prototype.toLowerCase` (ASCII case mapping). -/
def lowerStr (s : String) : String := ⟨s.data.map Char.toLower⟩

/-- Does the second list start the first (needle-first argument order)? -/
def startsWithL : List Char → List Char → Bool
  | [], _ => true
  | _ :: _, [] => false
  | a :: as, b :: bs => a == b && startsWithL as bs

/-- Substring search on character lists. -/
def containsSubL (needle : List Char) : List Char → Bool
  | [] => needle.isEmpty
  | b :: bs => startsWithL needle (b :: bs) || containsSubL needle bs

/-- `hay.includes(needle)` of JavaScript. -/
def strContains (hay needle : String) : Bool := containsSubL needle.data hay.data

/-- `String.prototype.trim` (whitespace stripped from both ends). -/
def jsTrim (s : String) : String :=
  ⟨((s.data.dropWhile Char.isWhitespace).reverse.dropWhile Char.isWhitespace).reverse⟩

/-- `String.prototype.substring(0, n)`. -/
def takeChars (s : String) (n : Nat) : String := ⟨s.data.take n⟩

/-- `parseInt(s) || 0` of JavaScript: optional sign, leading decimal
digits, `NaN` collapsed to `0`. -/
def parseIntOr0 (s : String) : Int :=
  let t := (jsTrim s).data
  let signed : Int × List Char :=
    match t with
    | '-' :: cs => (-1, cs)
    | '+' :: cs => (1, cs)
    | cs => (1, cs)
  let digits := signed.2.takeWhile Char.isDigit
  if digits.isEmpty then 0
  else signed.1 * (digits.foldl (fun acc c => 10 * acc + (c.toNat - '0'.toNat)) 0 : Nat)

/-! ## Data model: the items child table -/

/-- One row of the `items` child table of a Warehouse Transfer Request
(`Warehouse Transfer Request Item`).  `name` is the framework row key. -/
structure TransferItem where
  name : String
  item_code : String
  item_name : String := ""
  uom : String := ""
  requested_qty : Int := 0
  accepted_qty : Int := 0
  shipped_qty : Int := 0
  received_qty : Int := 0
  available_qty : Int := 0
  available_qty_target : Int := 0
  requester_notes : String := ""
  deriving DecidableEq, Repr

/-- `frm.__original_quantities`: row key ↦ (shipped_qty, received_qty). -/
abbrev Snapshot := List (String × Int × Int)

/-- `store_original_quantities(frm)`: snapshot shipped/received of every
row, keyed by the row name. -/
def store_original_quantities (items : List TransferItem) : Snapshot :=
  items.map fun item => (item.name, item.shipped_qty, item.received_qty)

/-- `snapshot[name]?.shipped_qty || 0`. -/
def snapShipped (snap : Snapshot) (rowName : String) : Int :=
  ((snap.lookup rowName).map Prod.fst).getD 0

/-- `snapshot[name]?.received_qty || 0`. -/
def snapReceived (snap : Snapshot) (rowName : String) : Int :=
  ((snap.lookup rowName).map Prod.snd).getD 0

/-! ## Workflow handlers: approve / ship / receive -/

/-- Outcome of one of the three workflow handlers: either one of the
message boxes shown without contacting the server, or the RPC call with
its `[{item_code, qty}]` payload. -/
inductive ActionOutcome
  | noItems
  | validationErrors (errs : List String)
  | noAccepted
  | allDone
  | noneSelected
  | call (payload : List (String × Int))
  deriving DecidableEq, Repr

/-- One iteration of the `forEach` in `save_and_approve`: the payload
entry it pushes and the validation errors it collects. -/
def approveRowScan (item : TransferItem) : List (String × Int) × List String :=
  let requested := item.requested_qty
  let accepted := item.accepted_qty
  if accepted < 0 then
    ([], [item.item_code ++ ": Accepted quantity cannot be negative"])
  else if accepted > requested then
    ([], [item.item_code ++ ": Accepted quantity (" ++ toString accepted ++
          ") cannot exceed requested quantity (" ++ toString requested ++ ")"])
  else
    ([(item.item_code, accepted)], [])

/-- The whole `forEach` of `save_and_approve`, preserving row order. -/
def approveLoop : List TransferItem → List (String × Int) × List String
  | [] => ([], [])
  | item :: rest =>
    let s := approveRowScan item
    let r := approveLoop rest
    (s.1 ++ r.1, s.2 ++ r.2)

/-- `save_and_approve(frm)`: validate every row, show all errors together,
require at least one accepted item, then call `approve_transfer` with the
accepted quantities (0 meaning excluded). -/
def save_and_approve (items : List TransferItem) : ActionOutcome :=
  if items.length = 0 then .noItems
  else
    let scan := approveLoop items
    if scan.2.length > 0 then .validationErrors scan.2
    else if !(scan.1.any fun p => p.2 > 0) then .noAccepted
    else .call scan.1

/-- Accumulator of the `forEach` in `process_shipment` /
`process_receipt`: pushed payload entries, collected errors, and the
`has_unshipped` / `has_pending` flag. -/
structure ScanAcc where
  payload : List (String × Int)
  errors : List String
  flag : Bool
  deriving DecidableEq, Repr

/-- One iteration of the `forEach` in `process_shipment`. -/
def shipStep (snap : Snapshot) (item : TransferItem) : ScanAcc :=
  let accepted := item.accepted_qty
  let new_shipped := item.shipped_qty
  let original_shipped := snapShipped snap item.name
  let shipping_now := new_shipped - original_shipped
  if accepted = 0 then ⟨[], [], false⟩
  else
    let pending := accepted - original_shipped
    let flag := decide (pending > 0)
    if shipping_now > 0 then
      if new_shipped > accepted then
        ⟨[], [item.item_code ++ ": Shipped quantity (" ++ toString new_shipped ++
              ") cannot exceed accepted quantity (" ++ toString accepted ++ ")"], flag⟩
      else if shipping_now > item.available_qty then
        ⟨[], [item.item_code ++ ": Shipping quantity (" ++ toString shipping_now ++
              ") exceeds available stock (" ++ toString item.available_qty ++ ")"], flag⟩
      else
        ⟨[(item.item_code, shipping_now)], [], flag⟩
    else ⟨[], [], flag⟩

/-- The whole `forEach` of `process_shipment`, preserving row order. -/
def shipLoop (snap : Snapshot) : List TransferItem → ScanAcc
  | [] => ⟨[], [], false⟩
  | item :: rest =>
    let s := shipStep snap item
    let r := shipLoop snap rest
    ⟨s.payload ++ r.payload, s.errors ++ r.errors, s.flag || r.flag⟩

/-- `process_shipment(frm, original_quantities_snapshot)`. -/
def process_shipment (items : List TransferItem) (snap : Snapshot) : ActionOutcome :=
  let scan := shipLoop snap items
  if scan.errors.length > 0 then .validationErrors scan.errors
  else if scan.payload.length = 0 then
    if !scan.flag then .allDone else .noneSelected
  else .call scan.payload

/-- `save_and_ship(frm)`: empty-table guard, then use the stored snapshot
(falling back to the current values as baseline) and process. -/
def save_and_ship (items : List TransferItem) (stored : Option Snapshot) : ActionOutcome :=
  if items.length = 0 then .noItems
  else
    let snap := match stored with
      | some s => s
      | none => store_original_quantities items
    process_shipment items snap

/-- One iteration of the `forEach` in `process_receipt`. -/
def receiveStep (snap : Snapshot) (item : TransferItem) : ScanAcc :=
  let shipped := item.shipped_qty
  let new_received := item.received_qty
  let original_received := snapReceived snap item.name
  let receiving_now := new_received - original_received
  if shipped = 0 then ⟨[], [], false⟩
  else
    let pending := shipped - original_received
    let flag := decide (pending > 0)
    if receiving_now > 0 then
      if new_received > shipped then
        ⟨[], [item.item_code ++ ": Received quantity (" ++ toString new_received ++
              ") cannot exceed shipped quantity (" ++ toString shipped ++ ")"], flag⟩
      else
        ⟨[(item.item_code, receiving_now)], [], flag⟩
    else ⟨[], [], flag⟩

/-- The whole `forEach` of `process_receipt`, preserving row order. -/
def receiveLoop (snap : Snapshot) : List TransferItem → ScanAcc
  | [] => ⟨[], [], false⟩
  | item :: rest =>
    let s := receiveStep snap item
    let r := receiveLoop snap rest
    ⟨s.payload ++ r.payload, s.errors ++ r.errors, s.flag || r.flag⟩

/-- `process_receipt(frm, original_quantities_snapshot)`. -/
def process_receipt (items : List TransferItem) (snap : Snapshot) : ActionOutcome :=
  let scan := receiveLoop snap items
  if scan.errors.length > 0 then .validationErrors scan.errors
  else if scan.payload.length = 0 then
    if !scan.flag then .allDone else .noneSelected
  else .call scan.payload

/-! ## Role checks and status-driven button resolver (`refresh`) -/

/-- `can_ship(frm)`: source-warehouse manager check by name substring. -/
def can_ship (source : String) (user_roles : List String) : Bool :=
  (strContains source "Zahran" && user_roles.contains "Zahran Warehouse Manager")
  || (strContains source "Store" && user_roles.contains "Store Warehouse Manager")

/-- `can_receive(frm)`: target-warehouse manager check by name substring. -/
def can_receive (target : String) (user_roles : List String) : Bool :=
  (strContains target "Zahran" && user_roles.contains "Zahran Warehouse Manager")
  || (strContains target "Store" && user_roles.contains "Store Warehouse Manager")

/-- The workflow action buttons the `refresh` handler can add (the
Draft-only Excel utility dropdown is not a workflow action). -/
inductive ActionButton
  | submitForApproval
  | approveBtn
  | rejectBtn
  | markAsShipped
  | confirmReceipt
  deriving DecidableEq, Repr

/-- The status-driven `if / else if` chain of the `refresh` handler,
returning the workflow buttons it adds in order. -/
def resolveButtons (status : String) (user_roles : List String)
    (source target : String) : List ActionButton :=
  if status == "Draft" then
    [ActionButton.submitForApproval]
  else if status == "Pending Approval" && user_roles.contains "External Transfer Manager" then
    [ActionButton.approveBtn, ActionButton.rejectBtn]
  else if status == "Approved - Pending Shipment" || status == "Partially Shipped" then
    if can_ship source user_roles then [ActionButton.markAsShipped] else []
  else if status == "Shipped" || status == "Partially Shipped"
      || status == "Partially Completed" then
    if can_receive target user_roles then [ActionButton.confirmReceipt] else []
  else []

/-- The eight values of `approval_status`. -/
def approvalStatuses : List String :=
  ["Draft", "Pending Approval", "Approved - Pending Shipment", "Partially Shipped",
   "Shipped", "Partially Completed", "Completed", "Rejected"]

/-- Modelled from the spec: the (status, role) combinations the spec's
testable property names as showing an action button, to be compared with
`resolveButtons` from the source. -/
def specActionCombos (status : String) (user_roles : List String)
    (source target : String) : Bool :=
  (status == "Pending Approval" && user_roles.contains "External Transfer Manager")
  || ((status == "Approved - Pending Shipment" || status == "Partially Shipped")
      && can_ship source user_roles)
  || ((status == "Shipped" || status == "Partially Shipped"
       || status == "Partially Completed")
      && can_receive target user_roles)

/-! ## Item-table structure locks -/

/-- The `locked` status list of the `before_items_remove` child-table
handler. -/
def lockedRemoveStatuses : List String :=
  ["Pending Approval", "Approved - Pending Shipment", "Shipped",
   "Partially Completed", "Completed", "Rejected"]

/-- `before_items_remove`: `true` iff row removal is blocked with
`frappe.throw`. -/
def before_items_remove_blocks (status : String) : Bool :=
  lockedRemoveStatuses.contains status

/-- The `locked_statuses` list of `update_field_visibility`. -/
def lockedStatuses : List String :=
  ["Pending Approval", "Approved - Pending Shipment", "Shipped",
   "Partially Completed", "Completed", "Rejected"]

/-- `update_field_visibility`: `true` iff the grid gets
`cannot_add_rows = true` and the add-row affordance hidden. -/
def add_row_disabled (status : String) : Bool :=
  lockedStatuses.contains status

/-! ## Warehouse pairing filter (`setup_warehouse_filters`) -/

def GROUP_A : List String :=
  ["Zahran Main - EZ", "Damage - EZ", "Damage For Sale - EZ"]

def GROUP_B : List String :=
  ["Store Warehouse - EZ", "Store Display - EZ", "Store Damage - EZ"]

def EXTERNAL_WAREHOUSES : List String :=
  ["Zahran Main - EZ", "Store Warehouse - EZ"]

/-- A `set_query` result: either a `not in` exclusion or an `in`
candidate list. -/
inductive WarehouseFilter
  | notIn (names : List String)
  | inList (names : List String)
  deriving DecidableEq, Repr

/-- The `target_warehouse` query of `setup_warehouse_filters`; unset form
fields are the empty string (falsy). -/
def target_warehouse_query (transfer_type source : String) : WarehouseFilter :=
  if transfer_type == "" then
    .notIn ["Hold (Reserved / Pending Shipment) - EZ"]
  else
    let allowed : List String :=
      if transfer_type == "Internal Transfer" then
        if source == "" then GROUP_A ++ GROUP_B
        else if GROUP_A.contains source then GROUP_A.filter (fun w => w != source)
        else if GROUP_B.contains source then GROUP_B.filter (fun w => w != source)
        else []
      else if transfer_type == "External Transfer" then
        if source == "" then EXTERNAL_WAREHOUSES
        else EXTERNAL_WAREHOUSES.filter (fun w => w != source)
      else []
    .inList allowed

/-! ## Field editability resolver (`control_quantity_field_editability`) -/

/-- The `editable_fields` object of
`control_quantity_field_editability`. -/
structure EditableFields where
  item_code : Bool := false
  requested_qty : Bool := false
  accepted_qty : Bool := false
  shipped_qty : Bool := false
  received_qty : Bool := false
  requester_notes : Bool := false
  manager_notes : Bool := false
  deriving DecidableEq, Repr

/-- Rules 1-6 of `control_quantity_field_editability`, computing the
editable/read-only assignment from status and roles alone. -/
def compute_editable_fields (status : String) (user_roles : List String) : EditableFields :=
  let e0 : EditableFields := {}
  let e1 :=
    if status == "Pending Approval" && user_roles.contains "External Transfer Manager"
    then { e0 with accepted_qty := true, manager_notes := true } else e0
  let e2 :=
    if (status == "Approved - Pending Shipment" || status == "Partially Shipped")
        && (user_roles.contains "Zahran Warehouse Manager"
            || user_roles.contains "Store Manager")
    then { e1 with shipped_qty := true } else e1
  let e3 :=
    if (status == "Shipped" || status == "Partially Shipped"
        || status == "Partially Completed")
        && (user_roles.contains "Zahran Warehouse Manager"
            || user_roles.contains "Store Manager")
    then { e2 with received_qty := true } else e2
  let e4 := if status == "Draft" then { e3 with requester_notes := true } else e3
  let e5 := if status == "Draft" then { e4 with item_code := true } else e4
  if status == "Draft" then { e5 with requested_qty := true } else e5

/-- The `read_only` flags (0 editable / 1 read-only, as the script
writes them) of the seven workflow columns on the grid metadata. -/
structure ReadOnlyFlags where
  item_code : Nat
  requested_qty : Nat
  accepted_qty : Nat
  shipped_qty : Nat
  received_qty : Nat
  requester_notes : Nat
  manager_notes : Nat
  deriving DecidableEq, Repr

/-- The metadata mutation of `control_quantity_field_editability`: every
one of the seven columns gets `read_only = editable ? 0 : 1`,
whatever the flags held before the call. -/
def apply_editability (status : String) (user_roles : List String)
    (_meta : ReadOnlyFlags) : ReadOnlyFlags :=
  let e := compute_editable_fields status user_roles
  { item_code := if e.item_code then 0 else 1
    requested_qty := if e.requested_qty then 0 else 1
    accepted_qty := if e.accepted_qty then 0 else 1
    shipped_qty := if e.shipped_qty then 0 else 1
    received_qty := if e.received_qty then 0 else 1
    requester_notes := if e.requester_notes then 0 else 1
    manager_notes := if e.manager_notes then 0 else 1 }

/-! ## Excel bulk upload (`upload_items_from_excel`, `populate_items_table`) -/

/-- Header-cell test for the item-code column: case-insensitive
containment of both "item" and "code". -/
def item_code_pred (h : String) : Bool :=
  strContains (lowerStr h) "item" && strContains (lowerStr h) "code"

/-- Header-cell test for the requested-qty column. -/
def requested_qty_pred (h : String) : Bool :=
  strContains (lowerStr h) "requested" && strContains (lowerStr h) "qty"

/-- Header-cell test for the optional requester-notes column. -/
def requester_notes_pred (h : String) : Bool :=
  strContains (lowerStr h) "requester" && strContains (lowerStr h) "notes"

/-- One row of `sheet_to_json` output: header key ↦ cell text (absent
keys are the `null` cells). -/
abbrev SheetRow := List (String × String)

/-- `row[header] || ""`. -/
def cellValue (row : SheetRow) (header : String) : String :=
  (row.lookup header).getD ""

/-- An entry of `items_to_validate`. -/
structure UploadItem where
  item_code : String
  requested_qty : Int
  requester_notes : String
  deriving DecidableEq, Repr

/-- Outcome of the upload pipeline up to the server validation RPC. -/
inductive UploadOutcome
  | emptyFile
  | invalidFormat
  | noValidItems
  | validateCall (items : List UploadItem)
  deriving DecidableEq, Repr

/-- `upload_items_from_excel(frm)`, from the parsed `json_data` to the
`validate_items_for_upload` call (or the message box shown instead). -/
def upload_items_from_excel (json_data : List SheetRow) : UploadOutcome :=
  if json_data.length = 0 then .emptyFile
  else
    let headers := (json_data.headD []).map Prod.fst
    match headers.find? item_code_pred, headers.find? requested_qty_pred with
    | some icHdr, some rqHdr =>
      let rnHdr := headers.find? requester_notes_pred
      let items_to_validate :=
        (json_data.map fun row =>
          ({ item_code := jsTrim (cellValue row icHdr)
             requested_qty := parseIntOr0 (cellValue row rqHdr)
             requester_notes :=
               match rnHdr with
               | some rn => takeChars (jsTrim (cellValue row rn)) 55
               | none => "" } : UploadItem)).filter
          fun it => it.item_code != ""
      if items_to_validate.length = 0 then .noValidItems
      else .validateCall items_to_validate
    | _, _ => .invalidFormat

/-- An entry of `validated_items` returned by the server. -/
structure ValidatedItem where
  item_code : String
  item_name : String
  requested_qty : Int
  uom : String
  available_qty : Int
  available_qty_target : Int
  requester_notes : String
  deriving DecidableEq, Repr

/-- `populate_items_table(frm, validated_items)`: `frm.clear_table`
discards the prior rows, then one row per validated item is added with
shipped/received zeroed and accepted auto-set in Draft. -/
def populate_items_table (prior_items : List TransferItem) (status : String)
    (validated : List ValidatedItem) : List TransferItem :=
  let _ := prior_items
  validated.map fun v =>
    { name := ""
      item_code := v.item_code
      item_name := v.item_name
      requested_qty := v.requested_qty
      uom := v.uom
      available_qty := v.available_qty
      available_qty_target := v.available_qty_target
      requester_notes := v.requester_notes
      shipped_qty := 0
      received_qty := 0
      accepted_qty := if status == "Draft" then v.requested_qty else 0 }

/-! ## Barcode scan handlers (ship / receive modes) -/

/-- `handle_ship_item_by_barcode` on the matched row: `none` when the
scan is refused with an error alert (row unchanged), `some` the updated
row otherwise. -/
def ship_scan_row (item : TransferItem) : Option TransferItem :=
  if item.accepted_qty = 0 then none
  else
    let new_shipped := item.shipped_qty + 1
    if new_shipped > item.accepted_qty then none
    else some { item with shipped_qty := new_shipped }

/-- `handle_receive_item_by_barcode` on the matched row: `none` when the
scan is refused with an error alert (row unchanged), `some` the updated
row otherwise. -/
def receive_scan_row (item : TransferItem) : Option TransferItem :=
  if item.shipped_qty = 0 then none
  else
    let new_received := item.received_qty + 1
    if new_received > item.shipped_qty then none
    else some { item with received_qty := new_received }

/-- The quantity-ordering invariants of a row. -/
def qtyInvariant (item : TransferItem) : Prop :=
  item.shipped_qty ≤ item.accepted_qty ∧ item.received_qty ≤ item.shipped_qty

instance (item : TransferItem) : Decidable (qtyInvariant item) := by
  unfold qtyInvariant; infer_instance

/-! ## Derived per-row forms used in the statements -/

/-- The validation error `save_and_approve` pushes for one row, if any. -/
def approveRowError (item : TransferItem) : Option String :=
  if item.accepted_qty < 0 then
    some (item.item_code ++ ": Accepted quantity cannot be negative")
  else if item.accepted_qty > item.requested_qty then
    some (item.item_code ++ ": Accepted quantity (" ++ toString item.accepted_qty ++
          ") cannot exceed requested quantity (" ++ toString item.requested_qty ++ ")")
  else none

/-! ## Concrete instances used in the theorems -/

/-- Ship delta demo: the items as loaded (baseline shipped = 2). -/
def shipDemoLoaded : List TransferItem :=
  [{ name := "r1", item_code := "A", requested_qty := 5, accepted_qty := 5,
     shipped_qty := 2, available_qty := 100 }]

/-- Ship delta demo: the same items after inline editing (shipped = 5). -/
def shipDemoCurrent : List TransferItem :=
  [{ name := "r1", item_code := "A", requested_qty := 5, accepted_qty := 5,
     shipped_qty := 5, available_qty := 100 }]

/-- Ship delta demo: the snapshot captured at form load. -/
def shipDemoSnap : Snapshot := store_original_quantities shipDemoLoaded

/-- A row whose shipped quantity already exceeds its accepted quantity at
snapshot time (no positive increment in this operation). -/
def overshipRowA : TransferItem :=
  { name := "r1", item_code := "A", requested_qty := 5, accepted_qty := 5,
    shipped_qty := 10, available_qty := 100 }

/-- A second row with a valid positive shipping increment. -/
def overshipRowB : TransferItem :=
  { name := "r2", item_code := "B", requested_qty := 5, accepted_qty := 5,
    shipped_qty := 1, available_qty := 100 }

def overshipItems : List TransferItem := [overshipRowA, overshipRowB]

def overshipSnap : Snapshot := [("r1", 10, 0), ("r2", 0, 0)]

/-- A row with accepted_qty = 10 exceeding requested_qty = 5. -/
def overAcceptRow : TransferItem :=
  { name := "r1", item_code := "EZ-7", requested_qty := 5, accepted_qty := 10 }

def overAcceptItems : List TransferItem := [overAcceptRow]

def overAcceptMsg : String :=
  "EZ-7: Accepted quantity (10) cannot exceed requested quantity (5)"

/-- Upload demo: a sheet with the template's descriptive headers, one
valid row and one row whose item code is blank. -/
def uploadDemo : List SheetRow :=
  [[("Item Code (mandatory) Example: EZ-1", "EZ-5"),
    ("Requested Qty (mandatory) Example: 50", "3")],
   [("Item Code (mandatory) Example: EZ-1", "  "),
    ("Requested Qty (mandatory) Example: 50", "2")]]

def uploadDemoItem : UploadItem :=
  { item_code := "EZ-5", requested_qty := 3, requester_notes := "" }

/-- Barcode demo row satisfying the quantity-ordering invariants. -/
def scanDemoRow : TransferItem :=
  { name := "r1", item_code := "X", requested_qty := 5, accepted_qty := 5,
    shipped_qty := 2, received_qty := 1 }

def scanDemoShipped : TransferItem := { scanDemoRow with shipped_qty := 3 }

def allZeroItems : List TransferItem :=
  [{ name := "r1", item_code := "A", requested_qty := 4, accepted_qty := 0 }]

def mixedItems : List TransferItem :=
  [{ name := "r1", item_code := "A", requested_qty := 4, accepted_qty := 0 },
   { name := "r2", item_code := "B", requested_qty := 4, accepted_qty := 2 }]

/-! ## Helper lemmas -/

theorem approveRowScan_snd (item : TransferItem) :
    (approveRowScan item).2 = (approveRowError item).toList := by
  by_cases h1 : item.accepted_qty < 0 <;>
    by_cases h2 : item.accepted_qty > item.requested_qty <;>
      simp [approveRowScan, approveRowError, h1, h2]

theorem approveRowScan_fst_of_ok (item : TransferItem)
    (h : (approveRowScan item).2 = []) :
    (approveRowScan item).1 = [(item.item_code, item.accepted_qty)] := by
  by_cases h1 : item.accepted_qty < 0 <;>
    by_cases h2 : item.accepted_qty > item.requested_qty <;>
      simp [approveRowScan, h1, h2] at h ⊢

theorem approveLoop_errors_eq (items : List TransferItem) :
    (approveLoop items).2 = items.filterMap approveRowError := by
  induction items with
  | nil => rfl
  | cons item rest ih =>
    simp only [approveLoop, List.filterMap_cons, ih, approveRowScan_snd]
    cases approveRowError item <;> simp

theorem approveLoop_payload_eq (items : List TransferItem)
    (h : (approveLoop items).2 = []) :
    (approveLoop items).1 = items.map fun i => (i.item_code, i.accepted_qty) := by
  induction items with
  | nil => rfl
  | cons item rest ih =>
    simp only [approveLoop] at h ⊢
    rcases List.append_eq_nil.mp h with ⟨h1, h2⟩
    simp [approveRowScan_fst_of_ok item h1, ih h2]

theorem save_and_approve_call_inv (items : List TransferItem) (p : List (String × Int))
    (h : save_and_approve items = ActionOutcome.call p) :
    (approveLoop items).2 = [] ∧ p = (approveLoop items).1 ∧
    ((approveLoop items).1.any fun q => q.2 > 0) = true := by
  simp only [save_and_approve] at h
  split at h
  · simp at h
  · split at h
    · simp at h
    · split at h
      · simp at h
      · rename_i hlen herr hacc
        refine ⟨List.length_eq_zero.mp (by omega), ?_, by simpa using hacc⟩
        cases h
        rfl

theorem save_and_approve_errs_inv (items : List TransferItem) (errs : List String)
    (h : save_and_approve items = ActionOutcome.validationErrors errs) :
    errs = items.filterMap approveRowError := by
  simp only [save_and_approve] at h
  split at h
  · simp at h
  · split at h
    · cases h
      exact approveLoop_errors_eq items
    · split at h <;> simp at h

theorem shipStep_payload_mem (snap : Snapshot) (item : TransferItem) (p : String × Int)
    (hp : p ∈ (shipStep snap item).payload) :
    p.1 = item.item_code ∧ p.2 = item.shipped_qty - snapShipped snap item.name ∧ 0 < p.2 := by
  simp only [shipStep] at hp
  split at hp
  · simp at hp
  · split at hp
    · split at hp
      · simp at hp
      · split at hp
        · simp at hp
        · rename_i hpos _ _
          rcases List.mem_singleton.mp hp with rfl
          exact ⟨rfl, rfl, hpos⟩
    · simp at hp

theorem shipLoop_payload_mem (snap : Snapshot) (items : List TransferItem) (p : String × Int)
    (hp : p ∈ (shipLoop snap items).payload) :
    ∃ item ∈ items, p.1 = item.item_code ∧
      p.2 = item.shipped_qty - snapShipped snap item.name ∧ 0 < p.2 := by
  induction items with
  | nil => simp [shipLoop] at hp
  | cons item rest ih =>
    simp only [shipLoop] at hp
    rcases List.mem_append.mp hp with hp | hp
    · exact ⟨item, List.mem_cons_self item rest, shipStep_payload_mem snap item p hp⟩
    · obtain ⟨it, hmem, hprop⟩ := ih hp
      exact ⟨it, List.mem_cons_of_mem item hmem, hprop⟩

theorem process_shipment_call_inv (items : List TransferItem) (snap : Snapshot)
    (p : List (String × Int)) (h : process_shipment items snap = ActionOutcome.call p) :
    (shipLoop snap items).errors = [] ∧ p = (shipLoop snap items).payload := by
  simp only [process_shipment] at h
  split at h
  · simp at h
  · split at h
    · split at h <;> simp at h
    · rename_i herr _
      refine ⟨List.length_eq_zero.mp (by omega), ?_⟩
      cases h
      rfl

theorem process_receipt_call_inv (items : List TransferItem) (snap : Snapshot)
    (p : List (String × Int)) (h : process_receipt items snap = ActionOutcome.call p) :
    (receiveLoop snap items).errors = [] ∧ p = (receiveLoop snap items).payload := by
  simp only [process_receipt] at h
  split at h
  · simp at h
  · split at h
    · split at h <;> simp at h
    · rename_i herr _
      refine ⟨List.length_eq_zero.mp (by omega), ?_⟩
      cases h
      rfl

theorem shipStep_errors_of_exceed (snap : Snapshot) (item : TransferItem)
    (h0 : item.accepted_qty ≠ 0)
    (h1 : 0 < item.shipped_qty - snapShipped snap item.name)
    (h2 : item.accepted_qty < item.shipped_qty) :
    (shipStep snap item).errors ≠ [] := by
  simp only [shipStep]
  rw [if_neg h0, if_pos h1, if_pos h2]
  simp

theorem receiveStep_errors_of_exceed (snap : Snapshot) (item : TransferItem)
    (h0 : item.shipped_qty ≠ 0)
    (h1 : 0 < item.received_qty - snapReceived snap item.name)
    (h2 : item.shipped_qty < item.received_qty) :
    (receiveStep snap item).errors ≠ [] := by
  simp only [receiveStep]
  rw [if_neg h0, if_pos h1, if_pos h2]
  simp

theorem shipLoop_errors_ne_nil (snap : Snapshot) (items : List TransferItem)
    (item : TransferItem) (hmem : item ∈ items)
    (hstep : (shipStep snap item).errors ≠ []) :
    (shipLoop snap items).errors ≠ [] := by
  induction items with
  | nil => simp at hmem
  | cons hd rest ih =>
    simp only [shipLoop]
    intro hnil
    rcases List.append_eq_nil.mp hnil with ⟨hh, hr⟩
    rcases List.mem_cons.mp hmem with rfl | hmem'
    · exact hstep hh
    · exact ih hmem' hr

theorem receiveLoop_errors_ne_nil (snap : Snapshot) (items : List TransferItem)
    (item : TransferItem) (hmem : item ∈ items)
    (hstep : (receiveStep snap item).errors ≠ []) :
    (receiveLoop snap items).errors ≠ [] := by
  induction items with
  | nil => simp at hmem
  | cons hd rest ih =>
    simp only [receiveLoop]
    intro hnil
    rcases List.append_eq_nil.mp hnil with ⟨hh, hr⟩
    rcases List.mem_cons.mp hmem with rfl | hmem'
    · exact hstep hh
    · exact ih hmem' hr

/-! ## Claim theorems -/

/-- C1: every entry of a `mark_as_shipped` payload issued by
`process_shipment` carries exactly the increment current `shipped_qty`
minus snapshot `shipped_qty` of some item row, and only strictly positive
increments are included. -/
theorem shipment_payload_is_positive_increments (items : List TransferItem)
    (snap : Snapshot) (payload : List (String × Int))
    (h : process_shipment items snap = ActionOutcome.call payload) :
    ∀ p ∈ payload, 0 < p.2 ∧ ∃ item ∈ items,
      p.1 = item.item_code ∧ p.2 = item.shipped_qty - snapShipped snap item.name := by
  intro p hp
  rcases process_shipment_call_inv items snap payload h with ⟨-, rfl⟩
  obtain ⟨item, hmem, h1, h2, h3⟩ := shipLoop_payload_mem snap items p hp
  exact ⟨h3, item, hmem, h1, h2⟩

/-- C1 witness: baseline shipped = 2, current shipped = 5 for item A
yields the payload `[("A", 3)]`, and the theorem applies to it. -/
theorem shipment_payload_witness :
    process_shipment shipDemoCurrent shipDemoSnap = ActionOutcome.call [("A", 3)] ∧
    (0 < (("A", (3 : Int)) : String × Int).2 ∧ ∃ item ∈ shipDemoCurrent,
      (("A", (3 : Int)) : String × Int).1 = item.item_code ∧
      (("A", (3 : Int)) : String × Int).2 = item.shipped_qty - snapShipped shipDemoSnap item.name) := by
  have h : process_shipment shipDemoCurrent shipDemoSnap = ActionOutcome.call [("A", 3)] := by
    decide
  exact ⟨h, shipment_payload_is_positive_increments shipDemoCurrent shipDemoSnap
    [("A", 3)] h ("A", 3) (by decide)⟩

/-- C2 counterexample: row A has shipped_qty = 10 above accepted_qty = 5
(a bound violation), yet `process_shipment` still issues the
`mark_as_shipped` call, because rows without a positive increment over
the snapshot are never validated. -/
theorem ship_call_despite_overshipped_row :
    (∃ item ∈ overshipItems, item.accepted_qty < item.shipped_qty) ∧
    process_shipment overshipItems overshipSnap = ActionOutcome.call [("B", 1)] :=
  ⟨⟨overshipRowA, by decide, by decide⟩, by decide⟩

/-- C2 amended: approval validates every row and collects all violations
into the one presented list, and a row with accepted over requested (or
negative) prevents the `approve_transfer` call; ship and receive validate
every non-excluded row with a positive increment over its snapshot, and
such a violating row prevents the respective RPC. -/
theorem validation_blocks_rpc (items : List TransferItem) (snap : Snapshot) :
    (∀ errs, save_and_approve items = ActionOutcome.validationErrors errs →
      errs = items.filterMap approveRowError) ∧
    (∀ item ∈ items, (item.requested_qty < item.accepted_qty ∨ item.accepted_qty < 0) →
      ∀ p, save_and_approve items ≠ ActionOutcome.call p) ∧
    (∀ item ∈ items, item.accepted_qty ≠ 0 →
      0 < item.shipped_qty - snapShipped snap item.name →
      item.accepted_qty < item.shipped_qty →
      ∀ p, process_shipment items snap ≠ ActionOutcome.call p) ∧
    (∀ item ∈ items, item.shipped_qty ≠ 0 →
      0 < item.received_qty - snapReceived snap item.name →
      item.shipped_qty < item.received_qty →
      ∀ p, process_receipt items snap ≠ ActionOutcome.call p) := by
  refine ⟨fun errs h => save_and_approve_errs_inv items errs h, ?_, ?_, ?_⟩
  · intro item hmem hviol p hcall
    rcases save_and_approve_call_inv items p hcall with ⟨herr, -, -⟩
    rw [approveLoop_errors_eq] at herr
    have hsome : (approveRowError item).isSome := by
      unfold approveRowError
      rcases hviol with hv | hv
      · by_cases h1 : item.accepted_qty < 0 <;> simp [h1, hv]
      · simp [hv]
    obtain ⟨msg, hmsg⟩ := Option.isSome_iff_exists.mp hsome
    have : msg ∈ items.filterMap approveRowError :=
      List.mem_filterMap.mpr ⟨item, hmem, hmsg⟩
    rw [herr] at this
    simp at this
  · intro item hmem h0 h1 h2 p hcall
    rcases process_shipment_call_inv items snap p hcall with ⟨herr, -⟩
    exact shipLoop_errors_ne_nil snap items item hmem
      (shipStep_errors_of_exceed snap item h0 h1 h2) herr
  · intro item hmem h0 h1 h2 p hcall
    rcases process_receipt_call_inv items snap p hcall with ⟨herr, -⟩
    exact receiveLoop_errors_ne_nil snap items item hmem
      (receiveStep_errors_of_exceed snap item h0 h1 h2) herr

/-- C2 witness: accepted_qty = 10 against requested_qty = 5 yields the
single rejection message naming the item code and both quantities, and
the theorem's approval branch blocks the call on that input. -/
theorem validation_blocks_rpc_witness :
    save_and_approve overAcceptItems = ActionOutcome.validationErrors [overAcceptMsg] ∧
    strContains overAcceptMsg "EZ-7" = true ∧
    strContains overAcceptMsg "10" = true ∧
    strContains overAcceptMsg "5" = true ∧
    save_and_approve overAcceptItems ≠ ActionOutcome.call [("EZ-7", 10)] := by
  refine ⟨by decide, by decide, by decide, by decide, ?_⟩
  exact (validation_blocks_rpc overAcceptItems []).2.1 overAcceptRow (by decide)
    (Or.inl (by decide)) [("EZ-7", 10)]

/-- C3: with `approval_status = "Partially Shipped"`, a user who passes
`can_receive` for the target warehouse gets no button at all — the ship
branch of the `refresh` else-if chain swallows the status, so the
Confirm Receipt branch (whose condition lists "Partially Shipped") is
unreachable, unlike the "Shipped" and "Partially Completed" statuses. -/
theorem partially_shipped_hides_confirm_receipt :
    can_receive "Store Warehouse - EZ" ["Store Warehouse Manager"] = true ∧
    can_ship "Zahran Main - EZ" ["Store Warehouse Manager"] = false ∧
    resolveButtons "Partially Shipped" ["Store Warehouse Manager"]
      "Zahran Main - EZ" "Store Warehouse - EZ" = [] ∧
    resolveButtons "Shipped" ["Store Warehouse Manager"]
      "Zahran Main - EZ" "Store Warehouse - EZ" = [ActionButton.confirmReceipt] ∧
    resolveButtons "Partially Completed" ["Store Warehouse Manager"]
      "Zahran Main - EZ" "Store Warehouse - EZ" = [ActionButton.confirmReceipt] := by
  decide

/-- C4 counterexample: for an Internal Transfer whose source is the first
Group A member, the target candidates are only the other Group A
warehouses; the Group B member "Store Warehouse - EZ" is not offered,
contradicting the claimed `GroupA \ {source} ∪ GroupB`. -/
theorem internal_groupA_target_filter_eval :
    target_warehouse_query "Internal Transfer" "Zahran Main - EZ"
      = WarehouseFilter.inList ["Damage - EZ", "Damage For Sale - EZ"] ∧
    "Store Warehouse - EZ" ∈ GROUP_B ∧
    "Store Warehouse - EZ" ∉ (["Damage - EZ", "Damage For Sale - EZ"] : List String) := by
  decide

/-- C4 amended: for an Internal Transfer with the source in Group A, the
target filter yields exactly `GroupA \ {source}` — the source itself is
excluded, every same-group peer is included, and no Group B member is a
candidate. -/
theorem internal_groupA_target_filter (source : String) (h : source ∈ GROUP_A) :
    target_warehouse_query "Internal Transfer" source
      = WarehouseFilter.inList (GROUP_A.filter fun w => w != source) ∧
    source ∉ GROUP_A.filter (fun w => w != source) ∧
    (∀ w ∈ GROUP_A, w ≠ source → w ∈ GROUP_A.filter fun w => w != source) ∧
    (∀ w ∈ GROUP_B, w ∉ GROUP_A.filter fun w => w != source) := by
  fin_cases h <;> decide

/-- C4 witness: the theorem applied to the Group A member "Damage - EZ". -/
theorem internal_groupA_target_filter_witness :
    target_warehouse_query "Internal Transfer" "Damage - EZ"
      = WarehouseFilter.inList (GROUP_A.filter fun w => w != "Damage - EZ") :=
  (internal_groupA_target_filter "Damage - EZ" (by decide)).1

/-- C5: in the "Partially Shipped" status — a non-Draft status — row
removal is not blocked and the add-row affordance is not disabled,
although both locks do engage in every other non-Draft status. -/
theorem partially_shipped_structure_unlocked :
    before_items_remove_blocks "Partially Shipped" = false ∧
    add_row_disabled "Partially Shipped" = false ∧
    "Partially Shipped" ∈ approvalStatuses ∧
    ("Partially Shipped" : String) ≠ "Draft" ∧
    (approvalStatuses.all fun s =>
      s == "Draft" || s == "Partially Shipped"
        || (before_items_remove_blocks s && add_row_disabled s)) = true := by
  decide

/-- C6 counterexample: Draft with no roles is outside the claimed
exception set, yet the refresh handler shows the primary Submit for
Approval button. -/
theorem draft_outside_combo_shows_button :
    specActionCombos "Draft" [] "" "" = false ∧
    resolveButtons "Draft" [] "" "" = [ActionButton.submitForApproval] := by
  decide

/-- C6 amended: outside the spec's exception set and outside the Draft
status (which always shows Submit for Approval), the refresh handler
shows zero workflow action buttons. -/
theorem no_buttons_outside_spec_combos (status : String) (user_roles : List String)
    (source target : String)
    (h1 : specActionCombos status user_roles source target = false)
    (h2 : status ≠ "Draft") :
    resolveButtons status user_roles source target = [] := by
  have hne : ∀ {b : Bool}, b = false → ¬(b = true) := by
    intro b hb ht
    rw [hb] at ht
    exact absurd ht (by decide)
  have hD : (status == "Draft") = false := by
    simp [h2]
  have hP : (status == "Pending Approval"
      && user_roles.contains "External Transfer Manager") = false := by
    cases hpb : (status == "Pending Approval"
        && user_roles.contains "External Transfer Manager")
    · rfl
    · exfalso
      unfold specActionCombos at h1
      rw [hpb] at h1
      simp at h1
  cases hSb : (status == "Approved - Pending Shipment" || status == "Partially Shipped") with
  | true =>
    have hcs : can_ship source user_roles = false := by
      cases hcsb : can_ship source user_roles
      · rfl
      · exfalso
        unfold specActionCombos at h1
        rw [hSb, hcsb] at h1
        simp at h1
    unfold resolveButtons
    rw [if_neg (hne hD), if_neg (hne hP), if_pos hSb, if_neg (hne hcs)]
  | false =>
    cases hRb : (status == "Shipped" || status == "Partially Shipped"
        || status == "Partially Completed") with
    | true =>
      have hcr : can_receive target user_roles = false := by
        cases hcrb : can_receive target user_roles
        · rfl
        · exfalso
          unfold specActionCombos at h1
          rw [hRb, hcrb] at h1
          simp at h1
      unfold resolveButtons
      rw [if_neg (hne hD), if_neg (hne hP), if_neg (hne hSb), if_pos hRb, if_neg (hne hcr)]
    | false =>
      unfold resolveButtons
      rw [if_neg (hne hD), if_neg (hne hP), if_neg (hne hSb), if_neg (hne hRb)]

/-- C6 witness: the theorem applied to the Completed status with no
roles. -/
theorem no_buttons_outside_witness :
    resolveButtons "Completed" [] "" "" = [] :=
  no_buttons_outside_spec_combos "Completed" [] "" "" (by decide) (by decide)

/-- C7: the template header is recognized as the item-code column by the
case-insensitive substring test; whenever any header passes that test the
column search succeeds with a passing header; every row whose trimmed
item code is empty is dropped before the validation call; and the item
table is repopulated in replace mode, independent of the prior rows. -/
theorem excel_upload_contract :
    item_code_pred "Item Code (mandatory) Example: EZ-1" = true ∧
    (∀ headers : List String, ∀ h ∈ headers, item_code_pred h = true →
      ∃ hc, headers.find? item_code_pred = some hc ∧ item_code_pred hc = true) ∧
    (∀ json items, upload_items_from_excel json = UploadOutcome.validateCall items →
      ∀ it ∈ items, it.item_code ≠ "") ∧
    (∀ prior prior' status validated,
      populate_items_table prior status validated
        = populate_items_table prior' status validated) ∧
    (∀ prior status validated,
      (populate_items_table prior status validated).length = validated.length) := by
  refine ⟨by decide, ?_, ?_, ?_, ?_⟩
  · intro headers h hmem hpred
    cases hfind : headers.find? item_code_pred with
    | none =>
      exact absurd hpred (by simpa using List.find?_eq_none.mp hfind h hmem)
    | some hc =>
      exact ⟨hc, rfl, List.find?_some hfind⟩
  · intro json items hu it hmem
    simp only [upload_items_from_excel] at hu
    split at hu
    · simp at hu
    · split at hu
      · split at hu
        · simp at hu
        · cases hu
          have := (List.mem_filter.mp hmem).2
          simpa using this
      · simp at hu
  · intro prior prior' status validated
    rfl
  · intro prior status validated
    simp [populate_items_table]

/-- C7 witness: on a sheet with the descriptive template header, a blank
row, and one valid row, the pipeline issues the validation call with
exactly the nonempty row, and the theorem certifies its item code is
nonempty. -/
theorem excel_upload_witness :
    upload_items_from_excel uploadDemo = UploadOutcome.validateCall [uploadDemoItem] ∧
    uploadDemoItem.item_code ≠ "" := by
  have h : upload_items_from_excel uploadDemo = UploadOutcome.validateCall [uploadDemoItem] := by
    decide
  exact ⟨h, excel_upload_contract.2.2.1 uploadDemo [uploadDemoItem] h uploadDemoItem (by decide)⟩

/-- C8: the editability resolver writes the same read-only assignment for
the seven workflow columns whatever the grid metadata held before the
call, so two calls with the same (status, roles) agree and the resolver
is idempotent — no hidden accumulation of state. -/
theorem editability_resolver_stateless (status : String) (user_roles : List String)
    (m m' : ReadOnlyFlags) :
    apply_editability status user_roles m = apply_editability status user_roles m' ∧
    apply_editability status user_roles (apply_editability status user_roles m)
      = apply_editability status user_roles m :=
  ⟨rfl, rfl⟩

/-- C9: on a row satisfying the quantity-ordering invariants, a ship-mode
scan either increments shipped_qty by exactly 1 (leaving the other
quantities unchanged) or is refused exactly when accepted_qty is 0 or the
increment would exceed accepted_qty; receive-mode scans behave dually
against shipped_qty; in every case the invariants still hold. -/
theorem barcode_scan_preserves_qty_order (item : TransferItem)
    (hinv : qtyInvariant item) :
    (∀ r, ship_scan_row item = some r →
      r.shipped_qty = item.shipped_qty + 1 ∧ r.received_qty = item.received_qty ∧
      r.accepted_qty = item.accepted_qty ∧ qtyInvariant r) ∧
    (ship_scan_row item = none ↔
      item.accepted_qty = 0 ∨ item.accepted_qty < item.shipped_qty + 1) ∧
    (∀ r, receive_scan_row item = some r →
      r.received_qty = item.received_qty + 1 ∧ r.shipped_qty = item.shipped_qty ∧
      r.accepted_qty = item.accepted_qty ∧ qtyInvariant r) ∧
    (receive_scan_row item = none ↔
      item.shipped_qty = 0 ∨ item.shipped_qty < item.received_qty + 1) := by
  obtain ⟨hsa, hrs⟩ := hinv
  refine ⟨?_, ?_, ?_, ?_⟩
  · intro r hr
    by_cases h0 : item.accepted_qty = 0 <;>
      by_cases h1 : item.shipped_qty + 1 > item.accepted_qty <;>
        simp [ship_scan_row, h0, h1] at hr
    rcases hr.symm with rfl
    refine ⟨rfl, rfl, rfl, ?_, ?_⟩
    · show item.shipped_qty + 1 ≤ item.accepted_qty
      omega
    · show item.received_qty ≤ item.shipped_qty + 1
      omega
  · by_cases h0 : item.accepted_qty = 0 <;>
      by_cases h1 : item.shipped_qty + 1 > item.accepted_qty <;>
        simp [ship_scan_row, h0, h1]
  · intro r hr
    by_cases h0 : item.shipped_qty = 0 <;>
      by_cases h1 : item.received_qty + 1 > item.shipped_qty <;>
        simp [receive_scan_row, h0, h1] at hr
    rcases hr.symm with rfl
    refine ⟨rfl, rfl, rfl, ?_, ?_⟩
    · show item.shipped_qty ≤ item.accepted_qty
      omega
    · show item.received_qty + 1 ≤ item.shipped_qty
      omega
  · by_cases h0 : item.shipped_qty = 0 <;>
      by_cases h1 : item.received_qty + 1 > item.shipped_qty <;>
        simp [receive_scan_row, h0, h1]

/-- C9 witness: a row with accepted 5 / shipped 2 / received 1 satisfies
the invariants, the ship scan yields shipped 3, and the theorem certifies
the invariants on the updated row. -/
theorem barcode_scan_witness :
    qtyInvariant scanDemoRow ∧
    ship_scan_row scanDemoRow = some scanDemoShipped ∧
    qtyInvariant scanDemoShipped := by
  have hinv : qtyInvariant scanDemoRow := by decide
  have h := (barcode_scan_preserves_qty_order scanDemoRow hinv).1 scanDemoShipped (by decide)
  exact ⟨hinv, by decide, h.2.2.2⟩

/-- C10: an `approve_transfer` call carries one entry per row (rows with
accepted_qty = 0 included with qty 0) and is issued only when some row
has accepted_qty > 0; when every row has accepted_qty = 0 no call is
made, and — absent other validation failures on a nonempty table — the
handler stops at the No Items Accepted message. -/
theorem approve_requires_accepted_item (items : List TransferItem) :
    (∀ p, save_and_approve items = ActionOutcome.call p →
      p = (items.map fun i => (i.item_code, i.accepted_qty)) ∧ ∃ q ∈ p, 0 < q.2) ∧
    ((∀ i ∈ items, i.accepted_qty = 0) →
      ∀ p, save_and_approve items ≠ ActionOutcome.call p) ∧
    (items ≠ [] → (∀ i ∈ items, i.accepted_qty = 0 ∧ 0 ≤ i.requested_qty) →
      save_and_approve items = ActionOutcome.noAccepted) := by
  have hcall : ∀ p, save_and_approve items = ActionOutcome.call p →
      p = (items.map fun i => (i.item_code, i.accepted_qty)) ∧ ∃ q ∈ p, 0 < q.2 := by
    intro p hp
    rcases save_and_approve_call_inv items p hp with ⟨herr, rfl, hany⟩
    rw [approveLoop_payload_eq items herr] at hany ⊢
    obtain ⟨q, hqmem, hq⟩ := List.any_eq_true.mp hany
    exact ⟨rfl, q, hqmem, by simpa using hq⟩
  refine ⟨hcall, ?_, ?_⟩
  · intro hzero p hp
    obtain ⟨hmap, q, hqmem, hq⟩ := hcall p hp
    rw [hmap] at hqmem
    obtain ⟨i, himem, rfl⟩ := List.mem_map.mp hqmem
    have := hzero i himem
    simp [this] at hq
  · intro hne hzero
    have herr : (approveLoop items).2 = [] := by
      rw [approveLoop_errors_eq]
      refine List.filterMap_eq_nil_iff.mpr fun i hi => ?_
      obtain ⟨h0, hreq⟩ := hzero i hi
      unfold approveRowError
      rw [if_neg (by omega), if_neg (by omega)]
    have hpay := approveLoop_payload_eq items herr
    have hany : ((approveLoop items).1.any fun q => q.2 > 0) = false := by
      rw [hpay]
      refine List.any_eq_false.mpr fun q hq => ?_
      obtain ⟨i, hi, rfl⟩ := List.mem_map.mp hq
      simp [(hzero i hi).1]
    have hlen : ¬ items.length = 0 := fun hc => hne (List.length_eq_zero.mp hc)
    have herrlen : ¬ (approveLoop items).2.length > 0 := by
      rw [herr]
      simp
    have hany' : (!((approveLoop items).1.any fun p => p.2 > 0)) = true := by
      rw [hany]
      rfl
    simp only [save_and_approve]
    rw [if_neg hlen, if_neg herrlen, if_pos hany']

/-- C10 witness: a single all-zero row stops at No Items Accepted via the
theorem, and a mixed table calls with the zero row included at qty 0. -/
theorem approve_requires_accepted_witness :
    save_and_approve allZeroItems = ActionOutcome.noAccepted ∧
    save_and_approve mixedItems = ActionOutcome.call [("A", 0), ("B", 2)] := by
  have h1 := (approve_requires_accepted_item allZeroItems).2.2 (by decide) (by decide)
  exact ⟨h1, by decide⟩

end ElectroZone
